import Mathlib
/-!
Verification of the NDVI web-app frontend (Leaflet + Chart.js client).

The development shallowly embeds the client-side orchestration code:
the polygon area estimator and admission control of the older handler
(`src/unnamed/part_000`), the validation and request lifecycle of the
current handler (`src/frontend/script.js`), and the layer display logic
(`showLayer`).  JavaScript numbers are modelled as rationals; the
floating-point `Math.cos` and `Math.PI` are abstracted as parameters
`cosd : ℚ → ℚ` and `piA : ℚ`, so every theorem below holds for any
cosine model, in particular the IEEE one.  A date input's value is
modelled as `Option ℕ` — `none` for the empty string, otherwise the
day number since the Unix epoch — and comparisons of day numbers agree
with `new Date(a) > new Date(b)` on well-formed `YYYY-MM-DD` values.
-/
/-- A Leaflet `LatLng` pair, as consumed by `getApproximatePolygonArea`. -/
structure LatLng where
  lat : ℚ
  lng : ℚ
deriving DecidableEq
/-- `const KM_PER_DEGREE = 111;` from `src/unnamed/part_000`. -/
def KM_PER_DEGREE : ℚ := 111
/-- `lng * KM_PER_DEGREE * Math.cos(lat * Math.PI / 180)` — the projected x. -/
def projX (cosd : ℚ → ℚ) (piA : ℚ) (p : LatLng) : ℚ :=
  p.lng * KM_PER_DEGREE * cosd (p.lat * piA / 180)
/-- `lat * KM_PER_DEGREE` — the projected y. -/
def projY (p : LatLng) : ℚ :=
  p.lat * KM_PER_DEGREE
/-- One loop iteration of the shoelace accumulation:
`x1 * y2 - x2 * y1` for the edge from `p` to `q`. -/
def edgeTerm (cosd : ℚ → ℚ) (piA : ℚ) (p q : LatLng) : ℚ :=
  projX cosd piA p * projY q - projX cosd piA q * projY p
/-- Sum of `edgeTerm` over adjacent pairs of a vertex list. -/
def adjPairSum (cosd : ℚ → ℚ) (piA : ℚ) : List LatLng → ℚ
  | a :: b :: t => edgeTerm cosd piA a b + adjPairSum cosd piA (b :: t)
  | _ => 0
/-- Last element of `d :: l` (total `getLast` with an explicit head). -/
def lastD (d : LatLng) : List LatLng → LatLng
  | [] => d
  | a :: t => lastD a t
/-- The signed shoelace accumulator of the `for (i = 0, j = n - 1; ...)`
loop: the sum of `edgeTerm` over all cyclically consecutive vertex pairs
(the loop starts with the wrap-around edge `(last, first)`; rational
addition is commutative, so we sum the same edge terms closing the ring
at the end). -/
def shoelaceSum (cosd : ℚ → ℚ) (piA : ℚ) (l : List LatLng) : ℚ :=
  adjPairSum cosd piA (l ++ l.take 1)
/-- `getApproximatePolygonArea` from `src/unnamed/part_000`:
returns 0 for fewer than 3 vertices, otherwise `Math.abs(area / 2)`. -/
def getApproximatePolygonArea (cosd : ℚ → ℚ) (piA : ℚ) (latlngs : List LatLng) : ℚ :=
  if latlngs.length < 3 then 0 else |shoelaceSum cosd piA latlngs / 2|
/-- The spec's description of the projection: "≈111 km per degree of
latitude", longitude scaled by the cosine of the latitude in radians. -/
def specProj (cosd : ℚ → ℚ) (piA : ℚ) (p : LatLng) : ℚ × ℚ :=
  (111 * p.lng * cosd (p.lat * piA / 180), 111 * p.lat)
/-- The spec's signed shoelace sum, written from the spec's words:
`Σ (x_j * y_i - x_i * y_j)` over consecutive vertex pairs, wrapping
last→first (here enumerated by zipping the list with its one-step
rotation). -/
def shoelaceSpecSum (cosd : ℚ → ℚ) (piA : ℚ) (l : List LatLng) : ℚ :=
  ((l.zip (l.rotate 1)).map fun pq =>
    (specProj cosd piA pq.1).1 * (specProj cosd piA pq.2).2 -
      (specProj cosd piA pq.2).1 * (specProj cosd piA pq.1).2).sum
/-! ## Admission control

`src/unnamed/part_000` (the older handler) checks, in order: polygon
presence, estimated area against `MAX_FRONTEND_AREA_ESTIMATE_SQKM`,
then date sanity.  `src/frontend/script.js` (the current handler)
checks only polygon presence and date sanity; the mission-start /
today bounds are carried by the date inputs' `min` / `max` attributes
set at page load.  Dates are day numbers since the Unix epoch, `none`
standing for an empty input value. -/
/-- GeoJSON-style coordinate extraction: each vertex as a `[lng, lat]`
pair, as produced by `geoJson.geometry.coordinates[0].map(...)`. -/
def polygonCoords (p : List LatLng) : List (ℚ × ℚ) :=
  p.map fun v => (v.lng, v.lat)
/-- `const MAX_FRONTEND_AREA_ESTIMATE_SQKM = 50;`. -/
def MAX_FRONTEND_AREA_ESTIMATE_SQKM : ℚ := 50
/-- Outcome of the `part_000` click handler's admission control. -/
inductive Part000Result where
  | rejectNoPolygon : Part000Result
  | rejectTooLarge (estimatedAreaSqKm : ℚ) : Part000Result
  | rejectBadDates : Part000Result
  | proceed (polygon : List (ℚ × ℚ)) (startDate endDate : ℕ) : Part000Result
deriving DecidableEq
/-- The admission control of the `processBtn` click handler in
`src/unnamed/part_000`: no polygon → reject; estimated area above the
threshold → reject, echoing the estimated area (the status message
interpolates `approxArea.toFixed(2)`); missing dates or `start > end`
→ reject; otherwise the request proceeds to `fetch`. -/
def part000Submit (cosd : ℚ → ℚ) (piA : ℚ) (currentPolygon : Option (List LatLng))
    (startDate endDate : Option ℕ) : Part000Result :=
  match currentPolygon with
  | none => .rejectNoPolygon
  | some poly =>
    let approxArea := getApproximatePolygonArea cosd piA poly
    if approxArea > MAX_FRONTEND_AREA_ESTIMATE_SQKM then
      .rejectTooLarge approxArea
    else
      match startDate, endDate with
      | some s, some e =>
        if s > e then .rejectBadDates else .proceed (polygonCoords poly) s e
      | _, _ => .rejectBadDates
/-- Outcome of the validation prologue (lines 70–79) of the
`processBtn` click handler in `src/frontend/script.js`. -/
inductive ScriptValidation where
  | rejectNoPolygon : ScriptValidation
  | rejectDates : ScriptValidation
  | accept : ScriptValidation
deriving DecidableEq
/-- `src/frontend/script.js` lines 70–79: `if (!currentPolygon) ...`,
then `if (!startDate || !endDate || new Date(startDate) > new
Date(endDate)) ...`; any remaining input proceeds to the `fetch`. -/
def scriptValidate (currentPolygon : Option (List LatLng))
    (startDate endDate : Option ℕ) : ScriptValidation :=
  match currentPolygon with
  | none => .rejectNoPolygon
  | some _ =>
    match startDate, endDate with
    | some s, some e => if s > e then .rejectDates else .accept
    | _, _ => .rejectDates
/-- `'2015-06-23'`, the Sentinel-2 mission-start lower bound assigned to
`startDateInput.min`, as a day number since the Unix epoch. -/
def missionStartDay : ℕ := 16609
/-- The constraint carried by the start-date input after lines 62–63 of
`src/frontend/script.js` (`min = '2015-06-23'`, `max = today`); HTML
`min`/`max` bounds are inclusive. -/
def startDateWidgetAllows (todayDay d : ℕ) : Bool :=
  decide (missionStartDay ≤ d ∧ d ≤ todayDay)
/-- The constraint carried by the end-date input after line 64 of
`src/frontend/script.js` (`max = today`, no `min`); inclusive. -/
def endDateWidgetAllows (todayDay d : ℕ) : Bool :=
  decide (d ≤ todayDay)
/-- The five-check validator described by the spec (polygon present with
at least 3 vertices, area within threshold, both dates present with
start ≤ end, start at or after mission start, end at or before today),
written from the spec's words for comparison with the code. -/
def fiveChecksPass (cosd : ℚ → ℚ) (piA : ℚ) (currentPolygon : Option (List LatLng))
    (startDate endDate : Option ℕ) (todayDay : ℕ) : Bool :=
  match currentPolygon, startDate, endDate with
  | some poly, some s, some e =>
    decide (3 ≤ poly.length ∧
      getApproximatePolygonArea cosd piA poly ≤ MAX_FRONTEND_AREA_ESTIMATE_SQKM ∧
      s ≤ e ∧ missionStartDay ≤ s ∧ e ≤ todayDay)
  | _, _, _ => false
/-! ## The `script.js` page state machine

`src/frontend/script.js` wires the map, the draw tool, the date inputs,
the process button, the chart and the layer slider into one event-driven
page.  We embed the page as a state record and a `step` function over
the events the page reacts to.  `displayedSession` is ghost bookkeeping
only: it records which submission's response last populated the chart
and the layer set, and influences no behaviour. -/
/-- One `result.imageLayers` entry: `{date, url, bounds}`. -/
structure LayerInfo where
  url : String
  date : String
  bounds : (ℚ × ℚ) × (ℚ × ℚ)
deriving DecidableEq
/-- One `result.graphData` entry: `{date, value}`. -/
structure SeriesPoint where
  date : String
  value : ℚ
deriving DecidableEq
/-- A well-formed success payload of `/process-ndvi`. -/
structure Payload where
  graphData : List SeriesPoint
  imageLayers : List LayerInfo
deriving DecidableEq
/-- The JSON body handed to `fetch('/process-ndvi', ...)`, tagged with a
ghost submission number `id` (the code itself carries no such number). -/
structure Request where
  id : ℕ
  polygon : List (ℚ × ℚ)
  startDate : ℕ
  endDate : ℕ
  frequency : String
deriving DecidableEq
/-- The page state of `src/frontend/script.js` (the parts the claims
are about).  `ndviOverlays` lists the NDVI image overlays currently on
the Leaflet map, by identity; `activeMapLayers` mirrors the variable of
the same name; `boundLayerLists` records, in registration order, the
`imageLayers` array captured by each `input` listener added to the
slider (one listener accumulates per successful response). -/
structure PageState where
  currentPolygon : Option (List LatLng)
  drawnItems : List (List LatLng)
  startDateVal : Option ℕ
  endDateVal : Option ℕ
  frequencyVal : String
  statusMessage : String
  statusType : String
  btnDisabled : Bool
  chartVisible : Bool
  mapControlsVisible : Bool
  chartData : Option (List SeriesPoint)
  inFlight : Option Request
  nextReqId : ℕ
  boundLayerLists : List (List LayerInfo)
  sliderMax : ℤ
  sliderValue : ℤ
  activeMapLayers : List ℕ
  ndviOverlays : List ℕ
  dateLabel : String
  nextOverlayId : ℕ
  displayedSession : Option ℕ
deriving DecidableEq
def msgNoPolygon : String := "Please draw a polygon on the map first."
def msgBadDates : String := "Please enter valid dates (From <= To)."
def msgProcessing : String := "Processing data, please wait... This might take up to a minute."
def strError : String := "error"
def strInfo : String := "info"
def strSuccess : String := "success"
/-- JavaScript array indexing `imageLayers[index]`: negative or
out-of-range indices yield `undefined`. -/
def jsGet (l : List LayerInfo) (i : ℤ) : Option LayerInfo :=
  if i < 0 then none else l.get? i.toNat
/-- Assigning `v` to the range input's value: the browser clamps the
value into the slider's `[0, max]` range (degenerate `max < 0` pins the
value at the minimum). -/
def sliderPut (mx v : ℤ) : ℤ :=
  max 0 (min v (max 0 mx))
/-- `showLayer(index)` from `src/frontend/script.js` lines 152–163:
remove every layer in `activeMapLayers` from the map; if
`imageLayers[index]` exists, build a fresh image overlay, add it to the
map, remember it as the single active layer and update the date label.
Note that `activeMapLayers` itself is reassigned only in the
`layerInfo` branch. -/
def showLayer (imageLayers : List LayerInfo) (index : ℤ) (s : PageState) : PageState :=
  let s' := { s with
    ndviOverlays := s.ndviOverlays.filter fun o => !(s.activeMapLayers.contains o) }
  match jsGet imageLayers index with
  | some layerInfo =>
    { s' with
      ndviOverlays := s'.ndviOverlays ++ [s.nextOverlayId],
      activeMapLayers := [s.nextOverlayId],
      nextOverlayId := s.nextOverlayId + 1,
      dateLabel := layerInfo.date }
  | none => s'
/-- The events the page reacts to: a `draw:created` event, edits of the
two date inputs, a click on the process button, resolution of the
in-flight `fetch` (success payload or failure), and a slider `input`
event carrying the raw value `v` the user drags to. -/
inductive Event where
  | drawCreated (p : List LatLng) : Event
  | setStart (d : Option ℕ) : Event
  | setEnd (d : Option ℕ) : Event
  | click : Event
  | resolveOk (payload : Payload) : Event
  | resolveErr (errMsg : String) : Event
  | slide (v : ℕ) : Event
/-- One event-handling turn of `src/frontend/script.js`.

* `drawCreated`: the `L.Draw.Event.CREATED` handler (lines 28–32).
* `click`: the `processBtn` listener (lines 68–103).  A click on a
  disabled button dispatches nothing, so while a request is in flight
  the handler body never runs.
* `resolveOk` / `resolveErr`: the continuation after `await fetch`
  (lines 105–187), including the `finally` re-enable.  A resolution can
  only arrive for the in-flight request.
* `slide`: the slider `input` event; every registered listener runs, in
  registration order, each calling its captured `showLayer`. -/
def step (s : PageState) : Event → PageState
  | .drawCreated p =>
    { s with
      drawnItems := (match s.currentPolygon with
        | some q => s.drawnItems.erase q
        | none => s.drawnItems) ++ [p],
      currentPolygon := some p }
  | .setStart d => { s with startDateVal := d }
  | .setEnd d => { s with endDateVal := d }
  | .click =>
    if s.btnDisabled then s
    else
      match s.currentPolygon with
      | none => { s with statusMessage := msgNoPolygon, statusType := strError }
      | some poly =>
        match s.startDateVal, s.endDateVal with
        | some sd, some ed =>
          if sd > ed then
            { s with statusMessage := msgBadDates, statusType := strError }
          else
            { s with
              statusMessage := msgProcessing, statusType := strInfo,
              btnDisabled := true,
              chartVisible := false, mapControlsVisible := false,
              inFlight := some ⟨s.nextReqId, polygonCoords poly, sd, ed, s.frequencyVal⟩,
              nextReqId := s.nextReqId + 1 }
        | _, _ => { s with statusMessage := msgBadDates, statusType := strError }
  | .resolveOk payload =>
    match s.inFlight with
    | none => s
    | some r =>
      let len : ℤ := payload.imageLayers.length
      let v := sliderPut (len - 1) (len - 1)
      let s1 := { s with
        drawnItems := [],
        statusMessage := "Processing complete! Found " ++
          toString payload.imageLayers.length ++ " images.",
        statusType := strSuccess,
        chartVisible := true, mapControlsVisible := true,
        chartData := some payload.graphData,
        ndviOverlays := s.ndviOverlays.filter fun o => !(s.activeMapLayers.contains o),
        activeMapLayers := [],
        sliderMax := len - 1, sliderValue := v,
        boundLayerLists := s.boundLayerLists ++ [payload.imageLayers],
        displayedSession := some r.id,
        inFlight := none, btnDisabled := false }
      showLayer payload.imageLayers v s1
  | .resolveErr errMsg =>
    match s.inFlight with
    | none => s
    | some _ =>
      { s with
        statusMessage := "Error: " ++ errMsg, statusType := strError,
        inFlight := none, btnDisabled := false }
  | .slide v =>
    let val := sliderPut s.sliderMax (Int.ofNat v)
    s.boundLayerLists.foldl (fun st L => showLayer L val st)
      { s with sliderValue := val }
/-- Run a sequence of events. -/
def run (s : PageState) (es : List Event) : PageState :=
  es.foldl step s
/-- The page state right after `DOMContentLoaded`: no polygon, empty
feature group, default dates filled in (one year ago / today), nothing
in flight, no overlays, no chart. -/
def initState (startVal endVal : Option ℕ) : PageState where
  currentPolygon := none
  drawnItems := []
  startDateVal := startVal
  endDateVal := endVal
  frequencyVal := "monthly"
  statusMessage := ""
  statusType := ""
  btnDisabled := false
  chartVisible := false
  mapControlsVisible := false
  chartData := none
  inFlight := none
  nextReqId := 0
  boundLayerLists := []
  sliderMax := 0
  sliderValue := 0
  activeMapLayers := []
  ndviOverlays := []
  dateLabel := ""
  nextOverlayId := 0
  displayedSession := none
/-- `s` is reachable from `s0` by some event sequence. -/
def Reachable (s0 s : PageState) : Prop :=
  ∃ es : List Event, run s0 es = s
/-- The step invariant: the button is disabled exactly while a request
is in flight, and at most one NDVI overlay is on the map — when one is,
it is exactly the remembered active layer. -/
def PageInv (s : PageState) : Prop :=
  s.btnDisabled = s.inFlight.isSome ∧
  s.ndviOverlays.length ≤ 1 ∧
  (s.ndviOverlays ≠ [] → s.ndviOverlays = s.activeMapLayers)
/-! ## Opacity control

`src/frontend/index.html` declares an opacity slider (`min="0"
max="1" step="0.05" value="0.8"`), but no handler for it exists in the
sources; the spec specifies its behaviour. -/
/-- The mutable display cursor over a completed session's layers. -/
structure DisplayCursor where
  index : ℕ
  opacity : ℚ
deriving DecidableEq
/-- Modelled from the spec: the opacity-slider handler is absent from
the sources (`index.html` only declares the `opacitySlider` control).
Per the spec, `setOpacity(o)` clamps `o` to `[0,1]` and applies it to
the currently visible layer only, leaving the displayed index
unchanged. -/
def setOpacity (o : ℚ) (c : DisplayCursor) : DisplayCursor :=
  { c with opacity := max 0 (min 1 o) }
/-! ## Concrete fixtures for witnesses and counterexamples -/
/-- A cosine model that is exact at the equator (`cos 0 = 1`). -/
def cos1 : ℚ → ℚ := fun _ => 1
/-- A rational stand-in for `Math.PI` (its value is irrelevant to the
fixtures, whose latitudes are 0 where it matters). -/
def pi3 : ℚ := 3
/-- A 1°×1° right triangle at the equator: estimated area
`111·111/2 = 6160.5 km²`, far above the 50 km² threshold. -/
def bigTri : List LatLng := [⟨0, 0⟩, ⟨0, 1⟩, ⟨1, 0⟩]
/-- A 0.01°×0.01° right triangle at the equator: estimated area
`1.11·1.11/2 ≈ 0.616 km²`, below the threshold. -/
def smallTri : List LatLng := [⟨0, 0⟩, ⟨0, 1/100⟩, ⟨1/100, 0⟩]
/-- The page as loaded, with the date inputs prefilled (one year ago /
today as day numbers). -/
def initPage : PageState := initState (some 19000) (some 19100)
def layerA : LayerInfo := { url := "u1", date := "2024-01-05", bounds := ((0, 0), (1, 1)) }
def layerB : LayerInfo := { url := "v1", date := "2024-02-05", bounds := ((0, 0), (1, 1)) }
def layerC : LayerInfo := { url := "v2", date := "2024-03-05", bounds := ((0, 0), (1, 1)) }
def payA : Payload := { graphData := [{ date := "2024-01-05", value := 1 }], imageLayers := [layerA] }
def payB : Payload := { graphData := [{ date := "2024-02-05", value := 0 }], imageLayers := [layerB, layerC] }
/-- Draw a polygon and submit: leaves submission 0 in flight. -/
def submitTrace : List Event := [Event.drawCreated bigTri, Event.click]
/-- Two successful submissions (so two accumulated slider listeners)
followed by slider moves, one of them out of the second layer list's
range. -/
def overlayTrace : List Event :=
  [Event.drawCreated bigTri, Event.click, Event.resolveOk payA, Event.slide 0,
    Event.drawCreated bigTri, Event.click, Event.resolveOk payB,
    Event.slide 1, Event.slide 99]
def fiveLayers : List LayerInfo :=
  [{ url := "u0", date := "d0", bounds := ((0, 0), (1, 1)) },
   { url := "u1", date := "d1", bounds := ((0, 0), (1, 1)) },
   { url := "u2", date := "d2", bounds := ((0, 0), (1, 1)) },
   { url := "u3", date := "d3", bounds := ((0, 0), (1, 1)) },
   { url := "u4", date := "d4", bounds := ((0, 0), (1, 1)) }]
/-- A page state with one overlay (id 7) currently displayed. -/
def s5 : PageState :=
  { initPage with ndviOverlays := [7], activeMapLayers := [7], nextOverlayId := 8 }
/-- Draw and submit; submission 0 is in flight afterwards. -/
def preTrace : List Event := [Event.drawCreated bigTri, Event.click]
section ShoelaceLemmas
variable (cosd : ℚ → ℚ) (piA : ℚ)
theorem edgeTerm_self (p : LatLng) : edgeTerm cosd piA p p = 0 := by
  simp [edgeTerm]
theorem edgeTerm_antisymm (p q : LatLng) :
    edgeTerm cosd piA p q = -edgeTerm cosd piA q p := by
  simp only [edgeTerm]; ring
theorem lastD_append_singleton (d b : LatLng) (l : List LatLng) :
    lastD d (l ++ [b]) = b := by
  induction l generalizing d with
  | nil => rfl
  | cons a t ih => simpa [lastD] using ih a
theorem lastD_cons (d a : LatLng) (t : List LatLng) :
    lastD d (a :: t) = lastD a t := rfl
theorem lastD_reverse (d : LatLng) (l : List LatLng) :
    lastD d l.reverse = l.headD d := by
  cases l with
  | nil => rfl
  | cons a t => simp [List.reverse_cons, lastD_append_singleton]
theorem adjPairSum_cons (a : LatLng) (t : List LatLng) :
    adjPairSum cosd piA (a :: t) =
      edgeTerm cosd piA a (t.headD a) + adjPairSum cosd piA t := by
  cases t with
  | nil => simp [adjPairSum, edgeTerm_self]
  | cons b t' => simp [adjPairSum]
theorem adjPairSum_concat (l : List LatLng) (b : LatLng) :
    adjPairSum cosd piA (l ++ [b]) =
      adjPairSum cosd piA l + edgeTerm cosd piA (lastD b l) b := by
  induction l with
  | nil => simp [adjPairSum, lastD, edgeTerm_self]
  | cons a t ih =>
    cases t with
    | nil => simp [adjPairSum, lastD, edgeTerm_self]
    | cons c t' =>
      have h := ih
      simp only [List.cons_append, List.append_eq, adjPairSum, lastD_cons] at h ⊢
      rw [h]; ring
theorem adjPairSum_reverse (l : List LatLng) :
    adjPairSum cosd piA l.reverse = -adjPairSum cosd piA l := by
  induction l with
  | nil => simp [adjPairSum]
  | cons a t ih =>
    rw [List.reverse_cons, adjPairSum_concat, ih, lastD_reverse,
      adjPairSum_cons, edgeTerm_antisymm cosd piA (t.headD a) a]
    ring
theorem shoelaceSum_decomp (d : LatLng) (l : List LatLng) :
    shoelaceSum cosd piA l =
      adjPairSum cosd piA l + edgeTerm cosd piA (lastD d l) (l.headD d) := by
  cases l with
  | nil => simp [shoelaceSum, adjPairSum, lastD, edgeTerm_self]
  | cons a t =>
    show adjPairSum cosd piA ((a :: t) ++ [a]) = _
    rw [adjPairSum_concat, lastD_cons, lastD_cons, List.headD_cons]
theorem headD_reverse (d : LatLng) (l : List LatLng) :
    l.reverse.headD d = lastD d l := by
  have h := lastD_reverse d l.reverse
  rw [List.reverse_reverse] at h
  exact h.symm
theorem shoelaceSum_reverse (l : List LatLng) :
    shoelaceSum cosd piA l.reverse = -shoelaceSum cosd piA l := by
  rw [shoelaceSum_decomp cosd piA ⟨0, 0⟩ l.reverse,
    shoelaceSum_decomp cosd piA ⟨0, 0⟩ l, adjPairSum_reverse,
    lastD_reverse, headD_reverse,
    edgeTerm_antisymm cosd piA (l.headD ⟨0, 0⟩) (lastD ⟨0, 0⟩ l)]
  ring
theorem shoelaceSum_rotate_one (l : List LatLng) :
    shoelaceSum cosd piA (l.rotate 1) = shoelaceSum cosd piA l := by
  cases l with
  | nil => rfl
  | cons a t =>
    have hrot : (a :: t).rotate 1 = t ++ [a] := by
      simp [List.rotate_cons_succ]
    rw [hrot, shoelaceSum_decomp cosd piA a (t ++ [a]),
      shoelaceSum_decomp cosd piA a (a :: t), adjPairSum_concat,
      lastD_append_singleton, lastD_cons, List.headD_cons, adjPairSum_cons]
    have hhead : (t ++ [a]).headD a = t.headD a := by
      cases t <;> simp
    rw [hhead, edgeTerm_antisymm cosd piA a (t.headD a)]
    ring
theorem shoelaceSum_rotate (l : List LatLng) (k : ℕ) :
    shoelaceSum cosd piA (l.rotate k) = shoelaceSum cosd piA l := by
  induction k generalizing l with
  | zero => rw [List.rotate_zero]
  | succ n ih =>
    have h1 : l.rotate (n + 1) = (l.rotate 1).rotate n := by
      rw [List.rotate_rotate, Nat.add_comm]
    rw [h1, ih (l.rotate 1), shoelaceSum_rotate_one]
theorem specTerm_eq_edgeTerm (p q : LatLng) :
    (specProj cosd piA p).1 * (specProj cosd piA q).2 -
      (specProj cosd piA q).1 * (specProj cosd piA p).2 =
      edgeTerm cosd piA p q := by
  simp [specProj, edgeTerm, projX, projY, KM_PER_DEGREE]
  ring
theorem zip_rotate_sum (t : List LatLng) (a c : LatLng) :
    (((a :: t).zip (t ++ [c])).map fun pq =>
        (specProj cosd piA pq.1).1 * (specProj cosd piA pq.2).2 -
          (specProj cosd piA pq.2).1 * (specProj cosd piA pq.1).2).sum =
      adjPairSum cosd piA (a :: t) + edgeTerm cosd piA (lastD a t) c := by
  induction t generalizing a with
  | nil =>
    simp [adjPairSum, lastD, specTerm_eq_edgeTerm]
  | cons b t' ih =>
    have h := ih b
    simp only [List.cons_append, List.zip_cons_cons, List.map_cons,
      List.sum_cons, specTerm_eq_edgeTerm] at h ⊢
    rw [h, adjPairSum_cons cosd piA a (b :: t'), lastD_cons]
    simp
    ring
theorem shoelaceSpecSum_eq (l : List LatLng) :
    shoelaceSpecSum cosd piA l = shoelaceSum cosd piA l := by
  cases l with
  | nil => rfl
  | cons a t =>
    have hrot : (a :: t).rotate 1 = t ++ [a] := by
      simp [List.rotate_cons_succ]
    rw [shoelaceSpecSum, hrot, zip_rotate_sum,
      shoelaceSum_decomp cosd piA a (a :: t), lastD_cons, List.headD_cons]
end ShoelaceLemmas
theorem filter_not_contains_self (l : List ℕ) :
    (l.filter fun o => !(l.contains o)) = [] := by
  rw [List.filter_eq_nil_iff]
  intro a ha
  simp [ha]
theorem stale_filter_eq_nil (s : PageState) (h : PageInv s) :
    (s.ndviOverlays.filter fun o => !(s.activeMapLayers.contains o)) = [] := by
  by_cases h0 : s.ndviOverlays = []
  · simp [h0]
  · rw [h.2.2 h0]
    exact filter_not_contains_self _
theorem pageInv_showLayer (L : List LayerInfo) (i : ℤ) (s : PageState)
    (h : PageInv s) : PageInv (showLayer L i s) := by
  have hfl := stale_filter_eq_nil s h
  simp only [showLayer]
  split
  · refine ⟨h.1, ?_, ?_⟩ <;> simp only [hfl] <;> simp
  · refine ⟨h.1, ?_, ?_⟩ <;> simp only [hfl] <;> simp
theorem pageInv_foldl (v : ℤ) (Ls : List (List LayerInfo)) (s : PageState)
    (h : PageInv s) : PageInv (Ls.foldl (fun st L => showLayer L v st) s) := by
  induction Ls generalizing s with
  | nil => exact h
  | cons L Ls ih => exact ih _ (pageInv_showLayer L v s h)
theorem pageInv_step (s : PageState) (e : Event) (h : PageInv s) :
    PageInv (step s e) := by
  cases e with
  | drawCreated p => exact ⟨h.1, h.2.1, h.2.2⟩
  | setStart d => exact ⟨h.1, h.2.1, h.2.2⟩
  | setEnd d => exact ⟨h.1, h.2.1, h.2.2⟩
  | click =>
    simp only [step]
    split
    · exact h
    · split
      · exact ⟨h.1, h.2.1, h.2.2⟩
      · split
        · split
          · exact ⟨h.1, h.2.1, h.2.2⟩
          · exact ⟨rfl, h.2.1, h.2.2⟩
        · exact ⟨h.1, h.2.1, h.2.2⟩
  | resolveOk payload =>
    simp only [step]
    split
    · exact h
    · refine pageInv_showLayer _ _ _ ⟨rfl, ?_, ?_⟩ <;>
        simp only [stale_filter_eq_nil s h] <;> simp
  | resolveErr errMsg =>
    simp only [step]
    split
    · exact h
    · exact ⟨rfl, h.2.1, h.2.2⟩
  | slide v =>
    simp only [step]
    exact pageInv_foldl _ _ _ ⟨h.1, h.2.1, h.2.2⟩
theorem pageInv_run (es : List Event) (s : PageState) (h : PageInv s) :
    PageInv (run s es) := by
  induction es generalizing s with
  | nil => exact h
  | cons e es ih => exact ih _ (pageInv_step s e h)
theorem pageInv_init (a b : Option ℕ) : PageInv (initState a b) :=
  ⟨rfl, by simp [initState], fun hne => absurd rfl hne⟩
theorem pageInv_reachable (a b : Option ℕ) (s : PageState)
    (h : Reachable (initState a b) s) : PageInv s := by
  obtain ⟨es, rfl⟩ := h
  exact pageInv_run es _ (pageInv_init a b)
theorem bigTri_shoelace : shoelaceSum cos1 pi3 bigTri = 12321 := by
  norm_num [shoelaceSum, bigTri, adjPairSum, edgeTerm, projX, projY, KM_PER_DEGREE, cos1]
theorem bigTri_area : getApproximatePolygonArea cos1 pi3 bigTri = 12321/2 := by
  rw [getApproximatePolygonArea, if_neg (by decide), bigTri_shoelace]
  rw [abs_of_nonneg (by norm_num)]
theorem bigTri_area_gt_max :
    getApproximatePolygonArea cos1 pi3 bigTri > MAX_FRONTEND_AREA_ESTIMATE_SQKM := by
  rw [bigTri_area]
  norm_num [MAX_FRONTEND_AREA_ESTIMATE_SQKM]
/-- C7: for fewer than 3 vertices the estimator returns 0; for 3 or
more it returns the absolute value of half the shoelace sum over the
projected vertices (111 km per degree, longitude scaled by the cosine
of the latitude in radians); and the result is never negative. -/
theorem c7_area_estimator_contract (cosd : ℚ → ℚ) (piA : ℚ) (l : List LatLng) :
    (l.length < 3 → getApproximatePolygonArea cosd piA l = 0) ∧
    (3 ≤ l.length →
      getApproximatePolygonArea cosd piA l = |shoelaceSpecSum cosd piA l / 2|) ∧
    0 ≤ getApproximatePolygonArea cosd piA l := by
  refine ⟨?_, ?_, ?_⟩
  · intro h
    simp [getApproximatePolygonArea, h]
  · intro h
    rw [getApproximatePolygonArea, if_neg (by omega), shoelaceSpecSum_eq]
  · rw [getApproximatePolygonArea]
    split
    · exact le_refl 0
    · exact abs_nonneg _
theorem c7_witness :
    ([] : List LatLng).length < 3 ∧ getApproximatePolygonArea cos1 pi3 [] = 0 ∧
    3 ≤ bigTri.length ∧
    getApproximatePolygonArea cos1 pi3 bigTri = |shoelaceSpecSum cos1 pi3 bigTri / 2| ∧
    0 ≤ getApproximatePolygonArea cos1 pi3 bigTri :=
  ⟨by decide, (c7_area_estimator_contract cos1 pi3 []).1 (by decide),
    by decide, (c7_area_estimator_contract cos1 pi3 bigTri).2.1 (by decide),
    (c7_area_estimator_contract cos1 pi3 bigTri).2.2⟩
/-- C8: the estimated area is invariant under any cyclic rotation of
the vertex sequence and under reversal of the winding order. -/
theorem c8_area_rotation_reversal_invariant (cosd : ℚ → ℚ) (piA : ℚ)
    (l : List LatLng) (k : ℕ) :
    getApproximatePolygonArea cosd piA (l.rotate k) =
      getApproximatePolygonArea cosd piA l ∧
    getApproximatePolygonArea cosd piA l.reverse =
      getApproximatePolygonArea cosd piA l := by
  constructor
  · rw [getApproximatePolygonArea, getApproximatePolygonArea,
      List.length_rotate, shoelaceSum_rotate]
  · rw [getApproximatePolygonArea, getApproximatePolygonArea,
      List.length_reverse, shoelaceSum_reverse]
    split
    · rfl
    · rw [neg_div, abs_neg]
/-- C2: whenever the estimated area exceeds the 50 km² threshold, the
`part_000` handler rejects — for every date configuration — echoing the
estimated area, and the submission never proceeds to the backend. -/
theorem c2_oversized_area_always_rejected (cosd : ℚ → ℚ) (piA : ℚ)
    (poly : List LatLng) (startDate endDate : Option ℕ)
    (h : getApproximatePolygonArea cosd piA poly > MAX_FRONTEND_AREA_ESTIMATE_SQKM) :
    part000Submit cosd piA (some poly) startDate endDate =
      .rejectTooLarge (getApproximatePolygonArea cosd piA poly) ∧
    ∀ pc sd ed, part000Submit cosd piA (some poly) startDate endDate ≠ .proceed pc sd ed := by
  have he : part000Submit cosd piA (some poly) startDate endDate =
      .rejectTooLarge (getApproximatePolygonArea cosd piA poly) := by
    simp [part000Submit, h]
  refine ⟨he, fun pc sd ed hx => ?_⟩
  rw [he] at hx
  exact Part000Result.noConfusion hx
theorem c2_witness :
    getApproximatePolygonArea cos1 pi3 bigTri > MAX_FRONTEND_AREA_ESTIMATE_SQKM ∧
    part000Submit cos1 pi3 (some bigTri) (some 19000) (some 19100) =
      .rejectTooLarge (getApproximatePolygonArea cos1 pi3 bigTri) :=
  ⟨bigTri_area_gt_max,
    (c2_oversized_area_always_rejected cos1 pi3 bigTri (some 19000) (some 19100)
      bigTri_area_gt_max).1⟩
/-- C3 counterexample: the `script.js` handler accepts a submission
whose estimated area (6160.5 km²) fails the 50 km² check, even though
its dates satisfy the widget bounds — so "accepts iff all five checks
pass" is false for this handler (the area check is absent from it). -/
theorem c3_counterexample :
    scriptValidate (some bigTri) (some 19000) (some 19100) = .accept ∧
    startDateWidgetAllows 20000 19000 = true ∧
    endDateWidgetAllows 20000 19100 = true ∧
    fiveChecksPass cos1 pi3 (some bigTri) (some 19000) (some 19100) 20000 = false := by
  refine ⟨by decide, by decide, by decide, ?_⟩
  simp only [fiveChecksPass]
  rw [decide_eq_false_iff_not]
  rintro ⟨-, h2, -⟩
  rw [bigTri_area] at h2
  norm_num [MAX_FRONTEND_AREA_ESTIMATE_SQKM] at h2
/-- C3 as amended: the `script.js` handler accepts exactly when a
polygon is present and both dates are present with start ≤ end; the
mission-start and today bounds are carried by the date inputs'
`min`/`max` attributes, inclusively — a start equal to `2015-06-23`
and an end equal to today pass the widget and are accepted. -/
theorem c3_accept_iff_three_checks (p : Option (List LatLng)) (sd ed : Option ℕ) :
    (scriptValidate p sd ed = .accept ↔
      p.isSome = true ∧ ∃ sv ev, sd = some sv ∧ ed = some ev ∧ sv ≤ ev) ∧
    (∀ todayDay poly, missionStartDay ≤ todayDay →
      startDateWidgetAllows todayDay missionStartDay = true ∧
      endDateWidgetAllows todayDay todayDay = true ∧
      scriptValidate (some poly) (some missionStartDay) (some todayDay) = .accept) := by
  constructor
  · cases p with
    | none => simp [scriptValidate]
    | some poly =>
      cases sd with
      | none => simp [scriptValidate]
      | some sv =>
        cases ed with
        | none => simp [scriptValidate]
        | some ev =>
          by_cases hgt : sv > ev
          · have hn : ¬ sv ≤ ev := by omega
            simp [scriptValidate, hgt, hn]
          · have hle : sv ≤ ev := by omega
            simp [scriptValidate, hgt, hle]
  · intro todayDay poly h
    refine ⟨?_, ?_, ?_⟩
    · simp [startDateWidgetAllows, h]
    · simp [endDateWidgetAllows]
    · simp [scriptValidate, Nat.not_lt.mpr h]
theorem c3_amended_witness :
    scriptValidate (some smallTri) (some missionStartDay) (some 20000) = .accept ∧
    startDateWidgetAllows 20000 missionStartDay = true ∧
    endDateWidgetAllows 20000 20000 = true := by
  have h := (c3_accept_iff_three_checks (some smallTri) (some missionStartDay)
    (some 20000)).2 20000 smallTri (by decide)
  exact ⟨h.2.2, h.1, h.2.1⟩
/-- C6: `setOpacity` clamps its argument to `[0,1]` (acting as the
identity on in-range values) and never changes which layer is
displayed. -/
theorem c6_set_opacity_clamps_preserves_index (o : ℚ) (c : DisplayCursor) :
    (setOpacity o c).index = c.index ∧
    0 ≤ (setOpacity o c).opacity ∧ (setOpacity o c).opacity ≤ 1 ∧
    (0 ≤ o → o ≤ 1 → (setOpacity o c).opacity = o) := by
  refine ⟨rfl, le_max_left 0 _, max_le zero_le_one (min_le_left 1 o), ?_⟩
  intro h0 h1
  simp only [setOpacity]
  rw [min_eq_right h1, max_eq_right h0]
theorem c6_witness :
    (setOpacity (1/2) { index := 3, opacity := 4/5 }).index = 3 ∧
    (setOpacity (1/2) { index := 3, opacity := 4/5 }).opacity = 1/2 := by
  have h := c6_set_opacity_clamps_preserves_index (1/2) { index := 3, opacity := 4/5 }
  exact ⟨h.1, h.2.2.2 (by norm_num) (by norm_num)⟩
/-- C1 counterexample: with submission A (= 0) in flight, a second
submit click (B) is dropped entirely — the page state is unchanged, no
submission 1 is ever created — and when A's response then arrives, the
displayed state reflects A.  There is no sequence-number guard; the
claimed scenario "B supersedes A" cannot occur because the button is
disabled while A is in flight. -/
theorem c1_counterexample :
    (run initPage submitTrace).inFlight.isSome = true ∧
    run initPage (submitTrace ++ [Event.click]) = run initPage submitTrace ∧
    (run initPage (submitTrace ++ [Event.click, Event.resolveOk payA])).displayedSession
      = some 0 ∧
    (run initPage (submitTrace ++ [Event.click, Event.resolveOk payA])).nextReqId = 1 := by
  refine ⟨by decide, by decide, by decide, by decide⟩
/-- C1 as amended: the submit button is disabled exactly while a
request is in flight, and a submit click during flight is discarded as
a no-op, so no second submission can overlap the first; the single
in-flight response is never stale. -/
theorem c1_in_flight_click_discarded (a b : Option ℕ) (s : PageState)
    (h : Reachable (initState a b) s) :
    s.btnDisabled = s.inFlight.isSome ∧
    (s.inFlight.isSome = true → step s .click = s) := by
  have hinv := pageInv_reachable a b s h
  refine ⟨hinv.1, fun hs => ?_⟩
  have hb : s.btnDisabled = true := hinv.1.trans hs
  simp [step, hb]
theorem c1_witness :
    step (run initPage submitTrace) .click = run initPage submitTrace :=
  (c1_in_flight_click_discarded (some 19000) (some 19100) _
    ⟨submitTrace, rfl⟩).2 (by decide)
/-- C4: in every reachable page state — hence after any sequence of
slider moves and submissions — at most one NDVI overlay is on the map. -/
theorem c4_at_most_one_overlay (a b : Option ℕ) (s : PageState)
    (h : Reachable (initState a b) s) :
    s.ndviOverlays.length ≤ 1 :=
  (pageInv_reachable a b s h).2.1
theorem c4_witness :
    (run initPage overlayTrace).ndviOverlays.length ≤ 1 :=
  c4_at_most_one_overlay (some 19000) (some 19100) _ ⟨overlayTrace, rfl⟩
/-- C5 counterexample: `showLayer` does not clamp.  On a 5-layer list,
index −1 removes the current overlay and displays nothing (it does not
behave like index 0), and likewise index 99 does not behave like
index 4. -/
theorem c5_counterexample :
    (showLayer fiveLayers (-1) s5).ndviOverlays = [] ∧
    (showLayer fiveLayers 0 s5).ndviOverlays = [8] ∧
    showLayer fiveLayers (-1) s5 ≠ showLayer fiveLayers 0 s5 ∧
    (showLayer fiveLayers 99 s5).ndviOverlays = [] ∧
    showLayer fiveLayers 99 s5 ≠ showLayer fiveLayers 4 s5 := by
  refine ⟨by decide, by decide, by decide, by decide, by decide⟩
/-- C5 as amended: `showLayer` displays exactly the layer at `i` when
`i` is in range, and displays nothing when `i` is out of range (no
clamping); clamping happens only at the slider widget, whose
`min = 0` / `max = N − 1` attributes keep every slider-driven index in
range, so slider-driven calls always display exactly one valid layer. -/
theorem c5_show_layer_range_behavior (L : List LayerInfo) (i : ℤ) (s : PageState)
    (h : PageInv s) :
    ((jsGet L i).isSome = true →
      (showLayer L i s).ndviOverlays = [s.nextOverlayId] ∧
      (showLayer L i s).activeMapLayers = [s.nextOverlayId]) ∧
    (jsGet L i = none → (showLayer L i s).ndviOverlays = []) ∧
    (∀ v : ℕ, 1 ≤ L.length →
      (jsGet L (sliderPut ((L.length : ℤ) - 1) (Int.ofNat v))).isSome = true) := by
  have hfl := stale_filter_eq_nil s h
  refine ⟨?_, ?_, ?_⟩
  · intro hj
    obtain ⟨info, hinfo⟩ := Option.isSome_iff_exists.mp hj
    simp only [showLayer, hinfo, hfl]
    simp
  · intro hj
    simp only [showLayer, hj, hfl]
  · intro v hlen
    have h0 : 0 ≤ (L.length : ℤ) - 1 := by omega
    have hval0 : 0 ≤ sliderPut ((L.length : ℤ) - 1) (Int.ofNat v) := le_max_left 0 _
    have hvalmx : sliderPut ((L.length : ℤ) - 1) (Int.ofNat v) ≤ (L.length : ℤ) - 1 := by
      rw [sliderPut, max_eq_right h0]
      exact max_le h0 (min_le_right _ _)
    rw [jsGet, if_neg (by omega)]
    have hlt : (sliderPut ((L.length : ℤ) - 1) (Int.ofNat v)).toNat < L.length := by omega
    rw [List.get?_eq_get hlt]
    rfl
theorem c5_amended_witness :
    (showLayer fiveLayers 2 s5).ndviOverlays = [8] ∧
    (jsGet fiveLayers (sliderPut ((fiveLayers.length : ℤ) - 1) (Int.ofNat 9))).isSome
      = true := by
  have h := c5_show_layer_range_behavior fiveLayers 2 s5 ⟨rfl, by decide, fun hx => rfl⟩
  exact ⟨(h.1 (by decide)).1, h.2.2 9 (by decide)⟩
/-- C9: when validation fails (no polygon, a missing date, or start
after end) the click handler stops synchronously with one of the two
human-readable error messages: no request is issued and every
previously displayed result — chart data, chart/controls visibility,
overlays, slider listeners, date label — is left untouched. -/
theorem c9_validation_failure_is_local (s : PageState)
    (hd : s.btnDisabled = false)
    (hv : scriptValidate s.currentPolygon s.startDateVal s.endDateVal ≠ .accept) :
    (step s .click).inFlight = s.inFlight ∧
    (step s .click).nextReqId = s.nextReqId ∧
    (step s .click).chartData = s.chartData ∧
    (step s .click).chartVisible = s.chartVisible ∧
    (step s .click).mapControlsVisible = s.mapControlsVisible ∧
    (step s .click).ndviOverlays = s.ndviOverlays ∧
    (step s .click).activeMapLayers = s.activeMapLayers ∧
    (step s .click).boundLayerLists = s.boundLayerLists ∧
    (step s .click).dateLabel = s.dateLabel ∧
    (step s .click).statusType = strError ∧
    ((step s .click).statusMessage = msgNoPolygon ∨
      (step s .click).statusMessage = msgBadDates) := by
  have hstep : step s .click =
      { s with statusMessage := msgNoPolygon, statusType := strError } ∨
      step s .click =
      { s with statusMessage := msgBadDates, statusType := strError } := by
    simp only [step]
    rw [if_neg (by simp [hd])]
    cases hp : s.currentPolygon with
    | none => exact Or.inl (by simp)
    | some poly =>
      cases hsd : s.startDateVal with
      | none => exact Or.inr (by simp)
      | some sv =>
        cases hed : s.endDateVal with
        | none => exact Or.inr (by simp)
        | some ev =>
          by_cases hgt : sv > ev
          · exact Or.inr (by simp [hgt])
          · exact absurd (by simp [scriptValidate, hp, hsd, hed, hgt]) hv
  rcases hstep with h | h
  · rw [h]
    exact ⟨rfl, rfl, rfl, rfl, rfl, rfl, rfl, rfl, rfl, rfl, Or.inl rfl⟩
  · rw [h]
    exact ⟨rfl, rfl, rfl, rfl, rfl, rfl, rfl, rfl, rfl, rfl, Or.inr rfl⟩
theorem c9_witness :
    (step initPage .click).inFlight = initPage.inFlight ∧
    (step initPage .click).chartData = initPage.chartData ∧
    (step initPage .click).statusType = strError := by
  obtain ⟨h1, h2, h3, h4, h5, h6, h7, h8, h9, h10, h11⟩ :=
    c9_validation_failure_is_local initPage rfl (by decide)
  exact ⟨h1, h3, h10⟩
/-- A click on an enabled page with a polygon and valid dates issues
the request built from the current inputs. -/
theorem click_accept (s : PageState) (poly : List LatLng) (sd ed : ℕ)
    (hd : s.btnDisabled = false) (hp : s.currentPolygon = some poly)
    (hsv : s.startDateVal = some sd) (hev : s.endDateVal = some ed)
    (hle : ¬ sd > ed) :
    (step s .click).inFlight =
      some ⟨s.nextReqId, polygonCoords poly, sd, ed, s.frequencyVal⟩ := by
  simp [step, hd, hp, hsv, hev, hle]
/-- Field bookkeeping for a successful resolution: the handler clears
the drawn-items group but leaves `currentPolygon`, the date inputs and
the frequency untouched; the `finally` block re-enables the button. -/
theorem resolveOk_fields (s : PageState) (r : Request) (payload : Payload)
    (hin : s.inFlight = some r) :
    (step s (.resolveOk payload)).drawnItems = [] ∧
    (step s (.resolveOk payload)).currentPolygon = s.currentPolygon ∧
    (step s (.resolveOk payload)).startDateVal = s.startDateVal ∧
    (step s (.resolveOk payload)).endDateVal = s.endDateVal ∧
    (step s (.resolveOk payload)).frequencyVal = s.frequencyVal ∧
    (step s (.resolveOk payload)).btnDisabled = false ∧
    (step s (.resolveOk payload)).inFlight = none ∧
    (step s (.resolveOk payload)).nextReqId = s.nextReqId ∧
    (step s (.resolveOk payload)).displayedSession = some r.id := by
  simp only [step, hin]
  simp only [showLayer]
  split <;> exact ⟨rfl, rfl, rfl, rfl, rfl, rfl, rfl, rfl, rfl⟩
/-- C10: a successful response clears the drawn polygon from the map
(`drawnItems.clearLayers()`) but does not reset `currentPolygon`, so a
further click without redrawing passes the polygon-present check and
sends the old, no-longer-displayed geometry to the backend. -/
theorem c10_polygon_retained_after_success (s : PageState) (r : Request)
    (payload : Payload) (poly : List LatLng)
    (hin : s.inFlight = some r) (hp : s.currentPolygon = some poly) :
    (step s (.resolveOk payload)).drawnItems = [] ∧
    (step s (.resolveOk payload)).currentPolygon = some poly ∧
    (∀ sd ed, s.startDateVal = some sd → s.endDateVal = some ed → sd ≤ ed →
      (step (step s (.resolveOk payload)) .click).inFlight =
        some ⟨s.nextReqId, polygonCoords poly, sd, ed, s.frequencyVal⟩) := by
  obtain ⟨hdr, hcp, hsdv, hedv, hfq, hbd, hif, hnr, -⟩ :=
    resolveOk_fields s r payload hin
  refine ⟨hdr, hcp.trans hp, ?_⟩
  intro sd ed hs he hle
  have hngt : ¬ sd > ed := by omega
  have hacc := click_accept (step s (Event.resolveOk payload)) poly sd ed hbd
    (hcp.trans hp) (hsdv.trans hs) (hedv.trans he) hngt
  rw [hnr, hfq] at hacc
  exact hacc
theorem c10_witness :
    (step (run initPage preTrace) (.resolveOk payA)).drawnItems = [] ∧
    (step (run initPage preTrace) (.resolveOk payA)).currentPolygon = some bigTri ∧
    (step (step (run initPage preTrace) (.resolveOk payA)) .click).inFlight =
      some ⟨(run initPage preTrace).nextReqId, polygonCoords bigTri, 19000, 19100,
        (run initPage preTrace).frequencyVal⟩ := by
  have h := c10_polygon_retained_after_success (run initPage preTrace)
    ⟨0, polygonCoords bigTri, 19000, 19100, "monthly"⟩ payA bigTri
    (by decide) (by decide)
  exact ⟨h.1, h.2.1, h.2.2 19000 19100 (by decide) (by decide) (by decide)⟩
